import Mathlib

/-!
Verification of the epsteinFilePull scraper core against its design notes.

The Python sources are shallowly embedded: every function below is a direct
transcription of the control flow of the corresponding Python function, with
the browser/filesystem environment passed in explicitly (responses, page
state, user choices) and externally visible effects (sleeps, recovery calls,
dead-letter appends, fetch attempts) collected in the returned traces.
-/

namespace EpsteinFilePull

/-- Python's `needle in hay` substring test on strings, on char lists. -/
def hasSubList (needle : List Char) : List Char → Bool
  | [] => needle.isEmpty
  | c :: t => needle.isPrefixOf (c :: t) || hasSubList needle t

/-- Python's `needle in hay` for strings. -/
def strContainsSub (hay needle : String) : Bool :=
  hasSubList needle.toList hay.toList

/-- An HTTP response as seen through Playwright's request API:
`resp.status`, `resp.headers.get('content-type') or ''`, `resp.body()`. -/
structure Response where
  status : Nat
  contentType : String
  body : String
  deriving Repr, DecidableEq

/-!
## Verification Controller and Oracle

`ensure_page_verified` (src/util/headless_interaction_util.py lines 183-284;
the copy in src/common_util/headed_interaction_util.py lines 265-366 has the
same control flow) checks the inner oracle `_is_verified` once at entry and
then runs up to `max_attempts` probe rounds, re-checking the oracle at the
end of each round.  The page can change between checks (the probes click
things), so the oracle is embedded as the sequence of outcomes of its
successive invocations: `oracle k` is the result of the (k+1)-th call to
`_is_verified` (`oracle 0` is the entry check, `oracle k` the check closing
round `k`).  The result records the returned boolean together with the
number of probe rounds that were run.
-/

/-- Probe rounds of `ensure_page_verified`: round at index `i` runs the two
gate-clearing probes plus the reauth hook, then consults the oracle; at most
`n` further rounds remain.  Returns (result, rounds actually run). -/
def ensureRounds (oracle : Nat → Bool) : Nat → Nat → Bool × Nat
  | _, 0 => (false, 0)
  | i, n + 1 =>
    if oracle i then (true, 1)
    else
      let r := ensureRounds oracle (i + 1) n
      (r.1, r.2 + 1)

/-- `ensure_page_verified`: entry oracle check, then up to `maxAttempts`
probe rounds, each ending with an oracle re-check.  Returns the boolean the
Python function returns, paired with the number of probe rounds run. -/
def ensure_page_verified (oracle : Nat → Bool) (maxAttempts : Nat) : Bool × Nat :=
  if oracle 0 then (true, 0)
  else ensureRounds oracle 1 maxAttempts

/-- The page state consulted by `_is_verified`
(src/util/headless_interaction_util.py lines 192-232).  `ageSuccessDisplay`
is `none` when `#ageSuccess` is absent, otherwise the computed `display`
value; likewise `ageBlockDisplay` for `#age-verify-block`. -/
structure PageState where
  cookies : String
  ageSuccessDisplay : Option String
  robotBtnPresent : Bool
  ageBlockPresent : Bool
  ageBlockDisplay : String
  itemListPresent : Bool
  deriving Repr, DecidableEq

/-- Python truthiness of a string: non-empty. -/
def truthyStr (s : String) : Bool := !(s == "")

/-- `_is_verified`, transcribed check by check, first match wins:
cookie marker; visible `#ageSuccess`; robot-challenge element (negative);
missing `#age-verify-block` (verified only with catalog markup);
hidden `#age-verify-block`; otherwise not verified. -/
def is_verified (p : PageState) : Bool :=
  if strContainsSub p.cookies "justiceGovAgeVerified" then true
  else if (match p.ageSuccessDisplay with
           | some d => truthyStr d && !(d == "none")
           | none => false) then true
  else if p.robotBtnPresent then false
  else if !p.ageBlockPresent then
    (if p.itemListPresent then true else false)
  else if truthyStr p.ageBlockDisplay && p.ageBlockDisplay == "none" then true
  else false

theorem ensureRounds_succ_true (oracle : Nat → Bool) (i n : Nat)
    (h : oracle i = true) : ensureRounds oracle i (n + 1) = (true, 1) := by
  simp [ensureRounds, h]

theorem ensureRounds_succ_false (oracle : Nat → Bool) (i n : Nat)
    (h : oracle i = false) :
    ensureRounds oracle i (n + 1) =
      ((ensureRounds oracle (i + 1) n).1, (ensureRounds oracle (i + 1) n).2 + 1) := by
  simp [ensureRounds, h]

theorem ensureRounds_spec (oracle : Nat → Bool) :
    ∀ n i, ((ensureRounds oracle i n).1 = true ↔
      ∃ j, i ≤ j ∧ j < i + n ∧ oracle j = true) ∧
      (ensureRounds oracle i n).2 ≤ n := by
  intro n
  induction n with
  | zero =>
    intro i
    constructor
    · simp [ensureRounds]
      intro j h1 h2
      omega
    · simp [ensureRounds]
  | succ m ih =>
    intro i
    cases h : oracle i with
    | true =>
      rw [ensureRounds_succ_true oracle i m h]
      refine ⟨⟨fun _ => ⟨i, le_refl i, by omega, h⟩, fun _ => rfl⟩, by omega⟩
    | false =>
      rw [ensureRounds_succ_false oracle i m h]
      constructor
      · rw [(ih (i + 1)).1]
        constructor
        · rintro ⟨j, hj1, hj2, hj3⟩
          exact ⟨j, by omega, by omega, hj3⟩
        · rintro ⟨j, hj1, hj2, hj3⟩
          refine ⟨j, ?_, by omega, hj3⟩
          rcases Nat.eq_or_lt_of_le hj1 with h1 | h1
          · exfalso
            rw [← h1, h] at hj3
            exact Bool.false_ne_true hj3
          · omega
      · have := (ih (i + 1)).2
        simpa using by omega

/-- C1: for every sequence of oracle outcomes, `ensure_page_verified`
returns true iff the oracle reports verified at entry (check 0) or after one
of the first `max_attempts` probe rounds (checks 1..max_attempts), and it
never runs more than `max_attempts` probe rounds. -/
theorem ensure_page_verified_iff_oracle_within_max_attempts
    (oracle : Nat → Bool) (maxAttempts : Nat) :
    ((ensure_page_verified oracle maxAttempts).1 = true ↔
      ∃ i, i ≤ maxAttempts ∧ oracle i = true) ∧
    (ensure_page_verified oracle maxAttempts).2 ≤ maxAttempts := by
  unfold ensure_page_verified
  cases h : oracle 0 with
  | true =>
    simp only [if_pos rfl]
    exact ⟨⟨fun _ => ⟨0, Nat.zero_le _, h⟩, fun _ => rfl⟩, Nat.zero_le _⟩
  | false =>
    simp only [Bool.false_eq_true, if_false]
    obtain ⟨h1, h2⟩ := ensureRounds_spec oracle maxAttempts 1
    refine ⟨?_, h2⟩
    rw [h1]
    constructor
    · rintro ⟨j, hj1, hj2, hj3⟩
      exact ⟨j, by omega, hj3⟩
    · rintro ⟨j, hj1, hj2⟩
      refine ⟨j, ?_, by omega, hj2⟩
      rcases Nat.eq_zero_or_pos j with h0 | h0
      · exfalso
        rw [h0, h] at hj2
        exact Bool.false_ne_true hj2
      · omega

/-- C9: when the page's cookie string contains the marker
`justiceGovAgeVerified`, the oracle's first check wins — `is_verified` is
true whatever the rest of the page looks like — and the controller returns
true having run zero probe rounds. -/
theorem cookie_marker_verified_immediately (p : PageState)
    (h : strContainsSub p.cookies "justiceGovAgeVerified" = true) :
    is_verified p = true ∧
    ensure_page_verified (fun _ => is_verified p) 3 = (true, 0) := by
  have hv : is_verified p = true := by
    unfold is_verified
    rw [h]
    simp
  refine ⟨hv, ?_⟩
  unfold ensure_page_verified
  simp [hv]

/-- Witness for C9 at a concrete page carrying the cookie
`justiceGovAgeVerified=1` and an otherwise hostile state (visible robot
challenge, visible age gate). -/
theorem cookie_marker_verified_immediately_witness :
    strContainsSub "justiceGovAgeVerified=1" "justiceGovAgeVerified" = true ∧
    (is_verified ⟨"justiceGovAgeVerified=1", none, true, true, "block", false⟩ = true ∧
     ensure_page_verified
       (fun _ => is_verified ⟨"justiceGovAgeVerified=1", none, true, true, "block", false⟩)
       3 = (true, 0)) :=
  ⟨by decide,
   cookie_marker_verified_immediately
     ⟨"justiceGovAgeVerified=1", none, true, true, "block", false⟩ (by decide)⟩

/-!
## Backoff Retrier

`retry_with_backoff` (src/common_util/retry_helper.py lines 8-31).  The
operation is embedded as the stream of its per-attempt outcomes:
`outcomes a` is what attempt `a` (1-based) produces, `some v` on success and
`none` when it raises.  The trace records the returned value (`none` when
the last exception is re-raised), the sleep durations in order, and the
number of `recovery_fun` invocations.  In the source the sleep happens
inside the `except` handler of every failed attempt — including the last
one — and is followed by the recovery call, before the loop re-tests.
-/

/-- The `for attempt in range(1, max_retries + 1)` loop of
`retry_with_backoff`, at attempt index `a` with `k` iterations left. -/
def retryAux {α : Type} (outcomes : Nat → Option α) (backoffFactor : Nat) :
    Nat → Nat → Option α × List Nat × Nat
  | _, 0 => (none, [], 0)
  | a, k + 1 =>
    match outcomes a with
    | some v => (some v, [], 0)
    | none =>
      let t := retryAux outcomes backoffFactor (a + 1) k
      (t.1, backoffFactor * 2 ^ (a - 1) :: t.2.1, t.2.2 + 1)

/-- `retry_with_backoff(func, recovery_fun, ..., max_retries, backoff_factor)`:
returns (result, sleep durations, recovery invocations). -/
def retry_with_backoff {α : Type} (outcomes : Nat → Option α)
    (maxRetries backoffFactor : Nat) : Option α × List Nat × Nat :=
  retryAux outcomes backoffFactor 1 maxRetries

/-- C6 counterexample: with `backoff_factor=1` and 3 attempts that all fail,
the retrier sleeps three times — 1s, 2s and 4s — the last sleep coming after
the final exhausted attempt, before the re-raise; the claimed sleep sequence
`[1, 2]` with no sleep after the final attempt is wrong. -/
theorem retry_with_backoff_sleep_sequence_counterexample :
    retry_with_backoff (fun _ => (none : Option Unit)) 3 1 =
      (none, [1, 2, 4], 3) ∧
    ¬ ([1, 2, 4] = ([1, 2] : List Nat)) :=
  ⟨rfl, by decide⟩

/-- C6 amended: with `backoff_factor=1` and 3 attempts where every attempt
fails, `retry_with_backoff` sleeps exactly three times, for 1s, 2s and 4s —
it also sleeps (and runs the recovery action) after the final exhausted
attempt — and then re-raises the last error. -/
theorem retry_with_backoff_sleeps_every_failure {α : Type}
    (outcomes : Nat → Option α) (h : ∀ k, outcomes k = none) :
    retry_with_backoff outcomes 3 1 = (none, [1, 2, 4], 3) := by
  unfold retry_with_backoff retryAux
  rw [h 1]
  unfold retryAux
  rw [h 2]
  unfold retryAux
  rw [h 3]
  rfl

/-- Witness for the amended C6 at the constant-failure operation. -/
theorem retry_with_backoff_sleeps_every_failure_witness :
    (∀ k : Nat, (fun _ : Nat => (none : Option Unit)) k = none) ∧
    retry_with_backoff (fun _ : Nat => (none : Option Unit)) 3 1 =
      (none, [1, 2, 4], 3) :=
  ⟨fun _ => rfl,
   retry_with_backoff_sleeps_every_failure
     (fun _ : Nat => (none : Option Unit)) (fun _ => rfl)⟩

/-!
## File Fetcher request helper

`_try_get_request` inside `pull_doj_file_headless`
(src/util/doj_file_helper.py lines 36-74).  Attempt `a` (1-based) of the
Playwright GET is embedded as `att a`: either a returned `Response` or a
raised exception.  The loop runs `max(1, retries)` iterations; a non-200
response with attempts left sleeps `2^(attempt-1)` seconds and retries; a
200 response — or a non-200 one on the last attempt — is returned as-is;
an exception sleeps (when attempts are left) and retries, and only when
every attempt raised is the last exception re-raised.  There is no special
handling of status 404 anywhere, and no gate-clearing is invoked here. -/

/-- One attempt of the Playwright GET inside `_try_get_request`. -/
inductive Attempt where
  | resp (r : Response)
  | exc
  deriving Repr, DecidableEq

/-- Observable trace of `_try_get_request`: the returned response (`none`
when the last exception is re-raised), the sleeps, and the attempt count. -/
structure TryTrace where
  result : Option Response
  sleeps : List Nat
  attempts : Nat
  deriving Repr, DecidableEq

/-- The `for attempt in range(1, max(1, retries) + 1)` loop of
`_try_get_request`, at attempt index `a` with `k` iterations left. -/
def tgrAux (att : Nat → Attempt) (retries : Nat) : Nat → Nat → TryTrace
  | _, 0 => ⟨none, [], 0⟩
  | a, k + 1 =>
    match att a with
    | .resp r =>
      if r.status ≠ 200 ∧ a < retries then
        let t := tgrAux att retries (a + 1) k
        ⟨t.result, 2 ^ (a - 1) :: t.sleeps, t.attempts + 1⟩
      else ⟨some r, [], 1⟩
    | .exc =>
      let t := tgrAux att retries (a + 1) k
      if a < retries then ⟨t.result, 2 ^ (a - 1) :: t.sleeps, t.attempts + 1⟩
      else ⟨t.result, t.sleeps, t.attempts + 1⟩

/-- `_try_get_request(page, url)` with the configured retry budget. -/
def try_get_request (att : Nat → Attempt) (retries : Nat) : TryTrace :=
  tgrAux att retries 1 (max 1 retries)

/-- C3 counterexample: a URL whose every attempt returns HTTP 404 (so in
particular the first does).  With the default `retries=3`,
`_try_get_request` sleeps twice (1s then 2s), performs three fetch
attempts, and finally returns the 404 response instead of raising — the
claimed immediate terminal raise with no sleep and no further attempt does
not happen. -/
theorem try_get_request_404_counterexample :
    try_get_request (fun _ => Attempt.resp ⟨404, "text/html", "gone"⟩) 3 =
      ⟨some ⟨404, "text/html", "gone"⟩, [1, 2], 3⟩ ∧
    ¬ (([1, 2] : List Nat) = []) :=
  ⟨rfl, by decide⟩

theorem tgrAux_resp_retry (att : Nat → Attempt) (retries a k : Nat) (r : Response)
    (h : att a = Attempt.resp r) (hc : r.status ≠ 200 ∧ a < retries) :
    tgrAux att retries a (k + 1) =
      ⟨(tgrAux att retries (a + 1) k).result,
        2 ^ (a - 1) :: (tgrAux att retries (a + 1) k).sleeps,
        (tgrAux att retries (a + 1) k).attempts + 1⟩ := by
  conv_lhs => unfold tgrAux
  rw [h]
  simp only [if_pos hc]

theorem tgrAux_resp_done (att : Nat → Attempt) (retries a k : Nat) (r : Response)
    (h : att a = Attempt.resp r) (hc : ¬ (r.status ≠ 200 ∧ a < retries)) :
    tgrAux att retries a (k + 1) = ⟨some r, [], 1⟩ := by
  conv_lhs => unfold tgrAux
  rw [h]
  simp only [if_neg hc]

theorem tgrAux_exc_unfolded (att : Nat → Attempt) (retries a k : Nat)
    (h : att a = Attempt.exc) :
    tgrAux att retries a (k + 1) =
      if a < retries then
        ⟨(tgrAux att retries (a + 1) k).result,
          2 ^ (a - 1) :: (tgrAux att retries (a + 1) k).sleeps,
          (tgrAux att retries (a + 1) k).attempts + 1⟩
      else
        ⟨(tgrAux att retries (a + 1) k).result,
          (tgrAux att retries (a + 1) k).sleeps,
          (tgrAux att retries (a + 1) k).attempts + 1⟩ := by
  conv_lhs => unfold tgrAux
  rw [h]

/-- C3 amended: a first-attempt 404 is treated like any other non-200
response: `_try_get_request` sleeps 1 second and performs a second fetch
attempt (no gate-clearing is invoked inside it), and when the later
attempts also return responses it returns the last response rather than
raising a terminal error. -/
theorem try_get_request_404_retries (att : Nat → Attempt) (r : Response)
    (h1 : att 1 = Attempt.resp r) (h2 : r.status = 404) :
    (try_get_request att 3).sleeps.head? = some 1 ∧
    2 ≤ (try_get_request att 3).attempts ∧
    (∀ r2 r3, att 2 = Attempt.resp r2 → att 3 = Attempt.resp r3 →
      ¬ (try_get_request att 3).result = none) := by
  have hc1 : r.status ≠ 200 ∧ 1 < 3 := by omega
  have step1 : try_get_request att 3 =
      ⟨(tgrAux att 3 2 2).result, 2 ^ 0 :: (tgrAux att 3 2 2).sleeps,
        (tgrAux att 3 2 2).attempts + 1⟩ := by
    show tgrAux att 3 1 (2 + 1) = _
    rw [tgrAux_resp_retry att 3 1 2 r h1 hc1]
  refine ⟨by rw [step1]; rfl, ?_, ?_⟩
  · rw [step1]
    show 2 ≤ (tgrAux att 3 2 2).attempts + 1
    have h1le : 1 ≤ (tgrAux att 3 2 2).attempts := by
      cases ha2 : att 2 with
      | resp r2 =>
        by_cases hc : r2.status ≠ 200 ∧ 2 < 3
        · rw [show (2 : Nat) = 1 + 1 from rfl, tgrAux_resp_retry att 3 2 1 r2 ha2 hc]
          exact Nat.le_add_left 1 _
        · rw [show (2 : Nat) = 1 + 1 from rfl, tgrAux_resp_done att 3 2 1 r2 ha2 hc]
      | exc =>
        rw [show (2 : Nat) = 1 + 1 from rfl, tgrAux_exc_unfolded att 3 2 1 ha2]
        split
        · exact Nat.le_add_left 1 _
        · exact Nat.le_add_left 1 _
    omega
  · intro r2 r3 ha2 ha3
    rw [step1]
    show ¬ (tgrAux att 3 2 2).result = none
    by_cases h200 : r2.status = 200
    · have hc : ¬ (r2.status ≠ 200 ∧ 2 < 3) := by
        intro hx
        exact hx.1 h200
      rw [show (2 : Nat) = 1 + 1 from rfl, tgrAux_resp_done att 3 2 1 r2 ha2 hc]
      simp
    · have hc : r2.status ≠ 200 ∧ 2 < 3 := ⟨h200, by omega⟩
      rw [show (2 : Nat) = 1 + 1 from rfl, tgrAux_resp_retry att 3 2 1 r2 ha2 hc]
      have hc3 : ¬ (r3.status ≠ 200 ∧ 3 < 3) := by omega
      show ¬ (tgrAux att 3 3 (0 + 1)).result = none
      rw [tgrAux_resp_done att 3 3 0 r3 ha3 hc3]
      simp

/-- Witness for the amended C3 at the constant-404 environment. -/
theorem try_get_request_404_retries_witness :
    (fun _ : Nat => Attempt.resp ⟨404, "text/html", "gone"⟩) 1 =
      Attempt.resp ⟨404, "text/html", "gone"⟩ ∧
    (Response.mk 404 "text/html" "gone").status = 404 ∧
    ((try_get_request (fun _ : Nat => Attempt.resp ⟨404, "text/html", "gone"⟩) 3).sleeps.head? =
        some 1 ∧
      2 ≤ (try_get_request (fun _ : Nat => Attempt.resp ⟨404, "text/html", "gone"⟩) 3).attempts ∧
      (∀ r2 r3,
        (fun _ : Nat => Attempt.resp ⟨404, "text/html", "gone"⟩) 2 = Attempt.resp r2 →
        (fun _ : Nat => Attempt.resp ⟨404, "text/html", "gone"⟩) 3 = Attempt.resp r3 →
        ¬ (try_get_request (fun _ : Nat => Attempt.resp ⟨404, "text/html", "gone"⟩) 3).result =
            none)) :=
  ⟨rfl, rfl,
   try_get_request_404_retries (fun _ : Nat => Attempt.resp ⟨404, "text/html", "gone"⟩)
     ⟨404, "text/html", "gone"⟩ rfl rfl⟩

/-!
## File Fetcher

`pull_doj_file_headless` (src/util/doj_file_helper.py lines 21-401).  The
browser environment is embedded as the data the function consumes on its
way to a return: the initial `page.goto` response, the attempt streams of
the three `_try_get_request` call sites, the verification outcome, the
discovered PDF link and the interactive prompt answers.  Reading a returned
response's body is modelled as always succeeding.  The function's returned
dict `{'content', 'filename', 'headers'}` is embedded as `FetchResult`,
with the headers mapping represented by its `content-type` entry — the only
header the function consults. -/

/-- The dict returned by `pull_doj_file_headless` on success. -/
structure FetchResult where
  content : String
  filename : String
  contentType : String
  deriving Repr, DecidableEq

/-- `url.split('?')[0]`. -/
def stripQuery (url : String) : String :=
  String.mk (url.toList.takeWhile (fun c => !(c == '?')))

/-- `os.path.basename`: the part after the last `/`. -/
def basenameOf (s : String) : String :=
  String.mk ((s.toList.reverse.takeWhile (fun c => !(c == '/'))).reverse)

/-- `os.path.basename(url.split('?')[0]) or fallback` (the fallback in the
source is `download_{timestamp}.pdf`; the timestamp is abstracted). -/
def deriveFilename (url fallback : String) : String :=
  let b := basenameOf (stripQuery url)
  if b == "" then fallback else b

/-- Build the returned dict from a response. -/
def resultFrom (r : Response) (url : String) : FetchResult :=
  ⟨r.body, deriveFilename url "download.pdf", r.contentType⟩

/-- Environment of one `pull_doj_file_headless` call. -/
structure FetchEnv where
  /-- `page.goto(file_url)` response; `none` covers goto raising, returning
  `None`, or the body read failing. -/
  navResp : Option Response
  /-- attempt stream of the early `_try_get_request(page, file_url)`. -/
  earlyAtt : Nat → Attempt
  /-- outcome of `ensure_page_verified`. -/
  verified : Bool
  /-- interactive manual-verification prompt answered with `skip`. -/
  skipAtVerifyPrompt : Bool
  /-- `find_pdf_url` result after the click probes. -/
  pdfUrl : Option String
  /-- interactive final prompt answered with `skip`. -/
  skipAtFinalPrompt : Bool
  /-- attempt stream of `_try_get_request(page, pdf_url)`. -/
  pdfAtt : Nat → Attempt
  /-- attempt stream of the final `_try_get_request(page, file_url)`. -/
  navAtt : Nat → Attempt
  nonInteractive : Bool
  retries : Nat

/-- The acceptance check the source repeats at three of its four return
sites: a response (when one was obtained) is turned into a result exactly
when its status is 200 and `application/pdf` occurs in its declared
content-type. -/
def pdfGatedHit (ro : Option Response) (url : String) : Option FetchResult :=
  match ro with
  | some r =>
    if r.status == 200 && strContainsSub r.contentType "application/pdf" then
      some (resultFrom r url)
    else none
  | none => none

/-- Return site of the initial navigation (lines 105-124). -/
def navShortCircuit (navResp : Option Response) (fileUrl : String) : Option FetchResult :=
  pdfGatedHit navResp fileUrl

/-- Return site of the early direct fetch (lines 140-156): the early
`_try_get_request` outcome (an exception falls through). -/
def earlyFetchHit (env : FetchEnv) (fileUrl : String) : Option FetchResult :=
  pdfGatedHit (try_get_request env.earlyAtt env.retries).result fileUrl

/-- The paths on which the function returns `None` before attempting the
pdf-link/nav fetches: verification failed in non-interactive mode, the
manual verification prompt was answered `skip` (lines 158-203), or the
final interactive prompt was answered `skip` (lines 284-297). -/
def bailsBeforeFetch (env : FetchEnv) : Bool :=
  (!env.verified && env.nonInteractive) ||
  (!env.verified && !env.nonInteractive && env.skipAtVerifyPrompt) ||
  (!env.nonInteractive && env.skipAtFinalPrompt)

/-- Return site of the pdf-link fetch (lines 306-331): when `find_pdf_url`
found a link, its `_try_get_request` outcome is accepted on **status 200
alone — the content-type is never inspected on this path**. -/
def pdfLinkHit (env : FetchEnv) : Option FetchResult :=
  match env.pdfUrl with
  | some u =>
    match (try_get_request env.pdfAtt env.retries).result with
    | some r => if r.status == 200 then some (resultFrom r u) else none
    | none => none
  | none => none

/-- Return site of the final nav fetch (lines 342-367). -/
def navFetchHit (env : FetchEnv) (fileUrl : String) : Option FetchResult :=
  pdfGatedHit (try_get_request env.navAtt env.retries).result fileUrl

/-- `pull_doj_file_headless`, return site by return site in source order;
when no return site fires the function returns `None` (line 393). -/
def pull_doj_file_headless (env : FetchEnv) (fileUrl : String) : Option FetchResult :=
  match navShortCircuit env.navResp fileUrl with
  | some res => some res
  | none =>
    match earlyFetchHit env fileUrl with
    | some res => some res
    | none =>
      if bailsBeforeFetch env then none
      else
        match pdfLinkHit env with
        | some res => some res
        | none => navFetchHit env fileUrl

/-- The allowed media set exactly as the specification words it:
`application/pdf`, `video/mp4`, `video/webm`, `video/mpeg`, plus audio
types (`m4a`, `wav`), matched by substring containment against the declared
content-type.  This definition follows the spec text for comparison with
the code; no such set appears anywhere in the source. -/
def specAllowedMediaType (ct : String) : Bool :=
  strContainsSub ct "application/pdf" || strContainsSub ct "video/mp4" ||
  strContainsSub ct "video/webm" || strContainsSub ct "video/mpeg" ||
  strContainsSub ct "m4a" || strContainsSub ct "wav"

/-- A concrete environment in which the pdf-link fetch path is reached with
a status-200 response declaring `text/html`. -/
def c2Env : FetchEnv where
  navResp := none
  earlyAtt := fun _ => Attempt.resp ⟨403, "text/html", "denied"⟩
  verified := true
  skipAtVerifyPrompt := false
  pdfUrl := some "https://www.justice.gov/files/doc1.pdf"
  skipAtFinalPrompt := false
  pdfAtt := fun _ => Attempt.resp ⟨200, "text/html", "<html>gate</html>"⟩
  navAtt := fun _ => Attempt.exc
  nonInteractive := true
  retries := 3

/-- C2 counterexample: through the pdf-link path, `pull_doj_file_headless`
returns a FetchResult for a status-200 response whose declared content-type
is `text/html` — a type outside the allowed media set — because that path
checks only the status, never the content-type. -/
theorem pull_doj_file_headless_returns_nonmedia_counterexample :
    pull_doj_file_headless c2Env "https://www.justice.gov/d8/view" =
      some ⟨"<html>gate</html>", "doc1.pdf", "text/html"⟩ ∧
    specAllowedMediaType "text/html" = false :=
  ⟨rfl, by decide⟩

theorem pdfGatedHit_contentType (ro : Option Response) (url : String)
    (res : FetchResult) (h : pdfGatedHit ro url = some res) :
    strContainsSub res.contentType "application/pdf" = true := by
  unfold pdfGatedHit at h
  cases ro with
  | none => exact Option.noConfusion h
  | some r =>
    dsimp only at h
    by_cases hck : (r.status == 200 && strContainsSub r.contentType "application/pdf") = true
    · rw [if_pos hck] at h
      obtain ⟨_, h2⟩ := Bool.and_eq_true_iff.mp hck
      injection h with h
      rw [← h]
      exact h2
    · rw [if_neg hck] at h
      exact Option.noConfusion h

theorem pdfLinkHit_needs_pdfUrl (env : FetchEnv) (res : FetchResult)
    (h : pdfLinkHit env = some res) : ¬ env.pdfUrl = none := by
  intro hn
  unfold pdfLinkHit at h
  rw [hn] at h
  exact Option.noConfusion h

/-- C2 amended: every returned FetchResult either comes from a call in
which a pdf link was discovered (`find_pdf_url` non-`None` — that path
accepts any status-200 response without a content-type check), or its
declared content-type contains `application/pdf`; the other media types of
the spec's allowed set (mp4, webm, mpeg, m4a, wav) are nowhere accepted. -/
theorem pull_doj_file_headless_pdf_only_outside_pdf_link_path
    (env : FetchEnv) (fileUrl : String) (res : FetchResult)
    (h : pull_doj_file_headless env fileUrl = some res) :
    ¬ env.pdfUrl = none ∨ strContainsSub res.contentType "application/pdf" = true := by
  unfold pull_doj_file_headless at h
  cases h1 : navShortCircuit env.navResp fileUrl with
  | some r1 =>
    rw [h1] at h
    injection h with h
    right
    rw [← h]
    exact pdfGatedHit_contentType env.navResp fileUrl r1 h1
  | none =>
    rw [h1] at h
    cases h2 : earlyFetchHit env fileUrl with
    | some r2 =>
      rw [h2] at h
      injection h with h
      right
      rw [← h]
      unfold earlyFetchHit at h2
      exact pdfGatedHit_contentType _ fileUrl r2 h2
    | none =>
      rw [h2] at h
      by_cases hb : bailsBeforeFetch env = true
      · rw [if_pos hb] at h
        exact Option.noConfusion h
      · rw [if_neg hb] at h
        cases h3 : pdfLinkHit env with
        | some r3 =>
          left
          exact pdfLinkHit_needs_pdfUrl env r3 h3
        | none =>
          rw [h3] at h
          right
          unfold navFetchHit at h
          rw [← show res.contentType = res.contentType from rfl]
          exact pdfGatedHit_contentType _ fileUrl res h

/-- Witness for the amended C2: a call whose initial navigation directly
returns a PDF; no pdf link is involved, and the returned content-type
indeed contains `application/pdf`. -/
theorem pull_doj_file_headless_pdf_only_witness :
    pull_doj_file_headless
      { navResp := some ⟨200, "application/pdf; charset=binary", "pdfbytes"⟩
        earlyAtt := fun _ => Attempt.exc
        verified := true
        skipAtVerifyPrompt := false
        pdfUrl := none
        skipAtFinalPrompt := false
        pdfAtt := fun _ => Attempt.exc
        navAtt := fun _ => Attempt.exc
        nonInteractive := true
        retries := 3 }
      "https://www.justice.gov/files/doc2.pdf" =
      some ⟨"pdfbytes", "doc2.pdf", "application/pdf; charset=binary"⟩ ∧
    (¬ ({ navResp := some ⟨200, "application/pdf; charset=binary", "pdfbytes"⟩
          earlyAtt := fun _ => Attempt.exc
          verified := true
          skipAtVerifyPrompt := false
          pdfUrl := none
          skipAtFinalPrompt := false
          pdfAtt := fun _ => Attempt.exc
          navAtt := fun _ => Attempt.exc
          nonInteractive := true
          retries := 3 : FetchEnv }).pdfUrl = none ∨
      strContainsSub "application/pdf; charset=binary" "application/pdf" = true) :=
  ⟨rfl,
   pull_doj_file_headless_pdf_only_outside_pdf_link_path _
     "https://www.justice.gov/files/doc2.pdf"
     ⟨"pdfbytes", "doc2.pdf", "application/pdf; charset=binary"⟩ rfl⟩

/-!
## Dataset Crawler: per-item download loop

The `for a in anchors` loop of `pull_doj_dataset_headless`
(src/util/doj_dataset_helper.py lines 100-124).  Each anchor is embedded as
its `href` (with `none` covering a missing or empty, i.e. falsy, value) and
the outcome of its `pull_doj_file_headless` call.  The trace records every
observable effect of the loop: fetch calls made, file URLs attempted, files
saved, and dead-letter lines appended.  The loop's `except` clause only
logs, so `deadLetters` can never grow — `_append_dead_letter`
(src/common_util/headed_interaction_util.py lines 102-110) exists in the
repository but has no caller.  The on-disk state is passed in as `disk`
because the claims quantify over it; the source loop never consults it
(there is no `os.path.exists` check anywhere in the repository). -/

/-- Outcome of one `pull_doj_file_headless` call as the loop sees it. -/
inductive ItemOutcome where
  | success (content filename : String)
  | noResult
  | raised
  deriving Repr, DecidableEq

/-- One anchor of the item list. -/
structure ItemEnv where
  href : Option String
  outcome : ItemOutcome
  deriving Repr, DecidableEq

/-- Observable effects of the per-item loop. -/
structure ItemsTrace where
  fetchCalls : Nat
  attempted : List String
  saved : List String
  deadLetters : List String
  deriving Repr, DecidableEq

/-- The per-item loop with current `count` (the per-page counter; note the
source does not increment it when the item raised). -/
def processItemsAux (disk : String → Bool) :
    List ItemEnv → Nat → Nat → ItemsTrace
  | [], _, _ => ⟨0, [], [], []⟩
  | it :: rest, limit, count =>
    if limit ≤ count then ⟨0, [], [], []⟩
    else
      match it.href with
      | none => processItemsAux disk rest limit count
      | some u =>
        match it.outcome with
        | .success c f =>
          let t := processItemsAux disk rest limit (count + 1)
          ⟨t.fetchCalls + 1, u :: t.attempted,
            (if truthyStr c then f :: t.saved else t.saved), t.deadLetters⟩
        | .noResult =>
          let t := processItemsAux disk rest limit (count + 1)
          ⟨t.fetchCalls + 1, u :: t.attempted, t.saved, t.deadLetters⟩
        | .raised =>
          let t := processItemsAux disk rest limit count
          ⟨t.fetchCalls + 1, u :: t.attempted, t.saved, t.deadLetters⟩

/-- The per-item loop of `pull_doj_dataset_headless` for one page, with the
page's `per_page_limit`. -/
def process_items (disk : String → Bool) (items : List ItemEnv)
    (perPageLimit : Nat) : ItemsTrace :=
  processItemsAux disk items perPageLimit 0

theorem processItemsAux_deadLetters (disk : String → Bool) :
    ∀ (items : List ItemEnv) (limit count : Nat),
      (processItemsAux disk items limit count).deadLetters = [] := by
  intro items
  induction items with
  | nil =>
    intro limit count
    rfl
  | cons it rest ih =>
    intro limit count
    unfold processItemsAux
    by_cases hl : limit ≤ count
    · rw [if_pos hl]
    · rw [if_neg hl]
      cases it.href with
      | none => exact ih limit count
      | some u =>
        cases it.outcome with
        | success c f => exact ih limit (count + 1)
        | noResult => exact ih limit (count + 1)
        | raised => exact ih limit count

theorem processItemsAux_attempts_all (disk : String → Bool) :
    ∀ (items : List ItemEnv) (limit count : Nat),
      count + items.length ≤ limit →
      (processItemsAux disk items limit count).attempted =
        items.filterMap ItemEnv.href := by
  intro items
  induction items with
  | nil =>
    intro limit count _
    rfl
  | cons it rest ih =>
    intro limit count hle
    have hlen : (it :: rest).length = rest.length + 1 := rfl
    have hl : ¬ limit ≤ count := by
      rw [hlen] at hle
      omega
    unfold processItemsAux
    rw [if_neg hl]
    cases hh : it.href with
    | none =>
      rw [List.filterMap_cons, hh]
      exact ih limit count (by rw [hlen] at hle; omega)
    | some u =>
      rw [List.filterMap_cons, hh]
      cases it.outcome with
      | success c f =>
        simp only [List.cons.injEq]
        exact ⟨trivial, ih limit (count + 1) (by rw [hlen] at hle; omega)⟩
      | noResult =>
        simp only [List.cons.injEq]
        exact ⟨trivial, ih limit (count + 1) (by rw [hlen] at hle; omega)⟩
      | raised =>
        simp only [List.cons.injEq]
        exact ⟨trivial, ih limit count (by rw [hlen] at hle; omega)⟩

/-- C5 counterexample: a permanently-failing first item (its fetch raised)
produces no dead-letter record, yet the loop continues and downloads the
second item — the claimed per-failure dead-letter append never happens. -/
theorem process_items_no_dead_letter_counterexample :
    process_items (fun _ => false)
      [⟨some "https://www.justice.gov/f/a.pdf", ItemOutcome.raised⟩,
       ⟨some "https://www.justice.gov/f/b.pdf", ItemOutcome.success "data" "b.pdf"⟩]
      5 =
      ⟨2, ["https://www.justice.gov/f/a.pdf", "https://www.justice.gov/f/b.pdf"],
        ["b.pdf"], []⟩ ∧
    ¬ (([] : List String) = ["a.pdf dead letter"]) :=
  ⟨rfl, by decide⟩

/-- C5 amended: a per-file permanent failure never aborts the loop — when
the per-page cap does not bite, every item with a (truthy) href is
attempted, whatever the outcomes of the items before it — but no
dead-letter record is ever appended for any failure: the loop's `except`
only logs, and `_append_dead_letter` has no caller. -/
theorem process_items_continues_but_never_dead_letters
    (disk : String → Bool) (items : List ItemEnv) (limit : Nat) :
    (process_items disk items limit).deadLetters = [] ∧
    (items.length ≤ limit →
      (process_items disk items limit).attempted =
        items.filterMap ItemEnv.href) := by
  constructor
  · exact processItemsAux_deadLetters disk items limit 0
  · intro hle
    exact processItemsAux_attempts_all disk items limit 0 (by omega)

/-- Witness for the amended C5: the two-item run of the counterexample,
with the cap not biting. -/
theorem process_items_continues_but_never_dead_letters_witness :
    (process_items (fun _ => false)
        [⟨some "https://www.justice.gov/f/a.pdf", ItemOutcome.raised⟩,
         ⟨some "https://www.justice.gov/f/b.pdf",
           ItemOutcome.success "data" "b.pdf"⟩] 5).deadLetters = [] ∧
    (process_items (fun _ => false)
        [⟨some "https://www.justice.gov/f/a.pdf", ItemOutcome.raised⟩,
         ⟨some "https://www.justice.gov/f/b.pdf",
           ItemOutcome.success "data" "b.pdf"⟩] 5).attempted =
      List.filterMap ItemEnv.href
        [⟨some "https://www.justice.gov/f/a.pdf", ItemOutcome.raised⟩,
         ⟨some "https://www.justice.gov/f/b.pdf",
           ItemOutcome.success "data" "b.pdf"⟩] :=
  ⟨(process_items_continues_but_never_dead_letters (fun _ => false) _ 5).1,
   (process_items_continues_but_never_dead_letters (fun _ => false) _ 5).2
     (by decide)⟩

/-- C7 counterexample: a re-run in which the single item's derived target
filename already exists on disk still performs one fetch call — there is no
on-disk existence check before fetching. -/
theorem process_items_refetches_existing_counterexample :
    (process_items (fun _ => true)
        [⟨some "https://www.justice.gov/f/c.pdf",
           ItemOutcome.success "data" "c.pdf"⟩] 5).fetchCalls = 1 ∧
    ¬ ((1 : Nat) = 0) :=
  ⟨rfl, by decide⟩

theorem processItemsAux_disk_ignored (disk1 disk2 : String → Bool) :
    ∀ (items : List ItemEnv) (limit count : Nat),
      processItemsAux disk1 items limit count =
        processItemsAux disk2 items limit count := by
  intro items
  induction items with
  | nil =>
    intro limit count
    rfl
  | cons it rest ih =>
    intro limit count
    unfold processItemsAux
    by_cases hl : limit ≤ count
    · rw [if_pos hl, if_pos hl]
    · rw [if_neg hl, if_neg hl]
      cases it.href with
      | none => exact ih limit count
      | some u =>
        cases it.outcome with
        | success c f => rw [ih limit (count + 1)]
        | noResult => rw [ih limit (count + 1)]
        | raised => rw [ih limit count]

/-- C7 amended: the per-item loop never consults the on-disk state at all —
its behaviour is identical whatever already exists on disk — so a re-run
with every target filename present performs exactly the fetch calls of a
fresh run (one per item with a truthy href, when the per-page cap does not
bite) and appends zero new dead-letter entries (none are ever appended). -/
theorem process_items_ignores_disk (disk1 disk2 : String → Bool)
    (items : List ItemEnv) (limit : Nat) :
    process_items disk1 items limit = process_items disk2 items limit ∧
    (process_items disk1 items limit).deadLetters = [] := by
  exact ⟨processItemsAux_disk_ignored disk1 disk2 items limit 0,
    processItemsAux_deadLetters disk1 items limit 0⟩

/-!
## Dataset Crawler: the `for path in dataset_paths` loop

`pull_doj_dataset_headless` (src/util/doj_dataset_helper.py lines 40-238).
Each dataset is embedded as its name, the outcome of the root-page
`ensure_page_verified`, and — for the interactive branch — the manual
prompt answer and the post-manual re-verification outcome.  The crux of C4:
on a failed root verification the source executes `break` (lines 64, 72,
82), and the innermost enclosing loop at those points is the `for path in
dataset_paths` loop itself (the `while True` page loop only starts at line
90), so the `break` ends the whole crawl, not just the current dataset.
The trace records which dataset roots were visited and which datasets
reached the page loop. -/

/-- One dataset of the configured list. -/
structure DatasetEnv where
  name : String
  rootVerified : Bool
  manualSkip : Bool
  manualVerified : Bool
  deriving Repr, DecidableEq

/-- Datasets visited (root navigated) and datasets whose page loop ran. -/
structure CrawlTrace where
  visited : List String
  scraped : List String
  deriving Repr, DecidableEq

/-- The `for path in dataset_paths` loop of `pull_doj_dataset_headless`:
root navigation, verification, and on failure the `break` statements of
lines 64 (non-interactive), 72 (manual `skip`) and 82 (still unverified
after manual intervention), each of which terminates this very loop. -/
def crawl_datasets (nonInteractive : Bool) : List DatasetEnv → CrawlTrace
  | [] => ⟨[], []⟩
  | d :: rest =>
    if d.rootVerified then
      let t := crawl_datasets nonInteractive rest
      ⟨d.name :: t.visited, d.name :: t.scraped⟩
    else if nonInteractive then ⟨[d.name], []⟩
    else if d.manualSkip then ⟨[d.name], []⟩
    else if !d.manualVerified then ⟨[d.name], []⟩
    else
      let t := crawl_datasets nonInteractive rest
      ⟨d.name :: t.visited, d.name :: t.scraped⟩

/-- C4: when initial verification fails at the first dataset's root in a
non-interactive run, the `break` leaves the loop over the configured
dataset list, so the second dataset is never visited, let alone processed —
the code aborts the remaining datasets instead of proceeding to the next
one as the claim (and the source's own "skipping dataset page" log message)
describes. -/
theorem crawl_datasets_break_aborts_remaining_datasets :
    crawl_datasets true
      [⟨"data-set-8-files", false, false, false⟩,
       ⟨"data-set-9-files", true, false, false⟩] =
      ⟨["data-set-8-files"], []⟩ ∧
    ¬ ("data-set-9-files" ∈
      (crawl_datasets true
        [⟨"data-set-8-files", false, false, false⟩,
         ⟨"data-set-9-files", true, false, false⟩]).visited) ∧
    (crawl_datasets true
      [⟨"data-set-9-files", true, false, false⟩]).scraped =
      ["data-set-9-files"] := by
  refine ⟨rfl, ?_, rfl⟩
  decide

/-!
## Pagination

Two pieces of pagination code exist.  `navigate_to_next_page`
(src/util/doj_dataset_next_page.py lines 9-134) is the standalone walker:
in its direct-href branch a successful `page.goto` logs the status and then
immediately executes `return True` (line 61) — the block-status inspection,
verification run and retry all sit inside the no-href click branch (the
`else:` of line 74), where `resp` is always `None` so `blocked` can never
become true, yet `ensure_page_verified` runs unconditionally.  The inline
pagination of `pull_doj_dataset_headless`
(src/util/doj_dataset_helper.py lines 146-233) is the code that actually
inspects the status of a direct-href navigation for 401/403/451/503, runs
the Verification Controller once when blocked, retries the target once and
stops pagination when still blocked. -/

/-- Block statuses of lines 188 and 213: `(401, 403, 451, 503)`. -/
def blockStatus (s : Nat) : Bool :=
  s == 401 || s == 403 || s == 451 || s == 503

/-- Environment of one `navigate_to_next_page` call. -/
structure WalkerEnv where
  /-- a next-page control was located (lines 20-38). -/
  nextLinkFound : Bool
  /-- its `href` attribute (`none` for absent). -/
  href : Option String
  /-- direct `page.goto(full_next)` response; `none` = raised. -/
  gotoResp : Option Response
  /-- access-denied markers in the page content after the reload of the
  no-href branch (lines 118-124). -/
  reloadContentBlocked : Bool
  deriving Repr, DecidableEq

/-- `navigate_to_next_page`: returns the Python return value (`none` for
falling off the end, i.e. `None`) paired with the number of
`ensure_page_verified` invocations.  In the href branch a successful goto
returns `True` at line 61 before any status inspection; in the no-href
branch `blocked` is always false (`resp` is `None`), verification runs
once, the page is reloaded, and only the content markers decide. -/
def navigate_to_next_page (env : WalkerEnv) : Option Bool × Nat :=
  if !env.nextLinkFound then (none, 0)
  else
    match env.href with
    | some _ =>
      match env.gotoResp with
      | some _ => (some true, 0)
      | none => (none, 0)
    | none =>
      if env.reloadContentBlocked then (some false, 1) else (some true, 1)

/-- C8 counterexample: a direct-href navigation whose response status is
403 — a block code — yet `navigate_to_next_page` returns true, runs the
Verification Controller zero times and performs no retry, because its href
branch returns immediately after a successful goto without inspecting the
status. -/
theorem navigate_to_next_page_ignores_block_status_counterexample :
    navigate_to_next_page
      ⟨true, some "/epstein/doj-disclosures/data-set-8-files?page=2",
        some ⟨403, "text/html", "Access Denied"⟩, false⟩ = (some true, 0) ∧
    blockStatus 403 = true ∧
    ¬ ((some true, 0) = ((some false : Option Bool), 1)) :=
  ⟨rfl, by decide, by decide⟩

/-- Environment of one inline page-advance step of
`pull_doj_dataset_headless` (lines 146-233), after a next link was found. -/
structure AdvanceEnv where
  /-- the next link's `href` (`none` for absent). -/
  href : Option String
  /-- direct `page.goto(full_next)` outcome; `none` = raised. -/
  gotoResp : Option Response
  /-- the `next_link.click()` fallback when the goto raised. -/
  clickFallbackOk : Bool
  /-- the `next_link.click()` of the no-href branch. -/
  clickOk : Bool
  /-- retry `page.goto(full_next)` outcome; `none` = raised. -/
  retryResp : Option Response
  /-- access-denied content markers after the retry navigation. -/
  retryContentBlocked : Bool
  /-- the `page.reload()` of the no-href retry branch. -/
  reloadOk : Bool
  /-- access-denied content markers after that reload. -/
  reloadContentBlocked : Bool
  deriving Repr, DecidableEq

/-- Outcome of one page-advance step: continue the page loop or stop
pagination for this dataset (`break`). -/
inductive Advance where
  | advance
  | stop
  deriving Repr, DecidableEq

/-- The still-blocked test of the retry (line 213): access-denied content
markers, or a retry response present with a block status; a raised retry
goto stops pagination via the surrounding `except` (lines 225-227). -/
def retryStillBlocked (env : AdvanceEnv) : Bool :=
  match env.retryResp with
  | none => true
  | some r2 => env.retryContentBlocked || blockStatus r2.status

/-- One inline page-advance step: (outcome, `ensure_page_verified` runs,
retry navigations).  Direct navigation is preferred when an href exists so
the status is observable; `blocked` is computed from the goto response
status against the block codes; when blocked, one verification run and one
retry resolve whether pagination continues. -/
def page_advance (env : AdvanceEnv) : Advance × Nat × Nat :=
  match env.href with
  | some _ =>
    match env.gotoResp with
    | none =>
      if env.clickFallbackOk then (Advance.advance, 0, 0)
      else (Advance.stop, 0, 0)
    | some r =>
      if blockStatus r.status then
        if retryStillBlocked env then (Advance.stop, 1, 1)
        else (Advance.advance, 1, 1)
      else (Advance.advance, 0, 0)
  | none =>
    if !env.clickOk then (Advance.stop, 0, 0)
    else (Advance.advance, 0, 0)

/-- C8 amended: the block-code handling the claim describes lives in the
inline pagination of `pull_doj_dataset_headless`, and only for direct-href
navigations: there, a response with status outside {401,403,451,503}
advances with zero verification runs, while a block status triggers exactly
one Verification Controller run and one direct retry of the same target,
stopping pagination iff the retry still shows a block status, access-denied
content, or raised; the standalone `navigate_to_next_page` instead returns
true right after a successful direct-href goto without inspecting the
status. -/
theorem page_advance_href_block_handling (env : AdvanceEnv) (u : String)
    (r : Response) (h1 : env.href = some u) (h2 : env.gotoResp = some r) :
    (blockStatus r.status = false → page_advance env = (Advance.advance, 0, 0)) ∧
    (blockStatus r.status = true →
      page_advance env =
        (if retryStillBlocked env then Advance.stop else Advance.advance, 1, 1)) := by
  constructor
  · intro hb
    unfold page_advance
    rw [h1, h2]
    dsimp only
    rw [hb]
    rfl
  · intro hb
    unfold page_advance
    rw [h1, h2]
    dsimp only
    rw [hb]
    by_cases hs : retryStillBlocked env = true
    · rw [if_pos rfl, if_pos hs, if_pos hs]
    · rw [if_pos rfl, if_neg hs, if_neg hs]

/-- Witness for the amended C8 at a concrete blocked navigation whose
retry comes back clean. -/
theorem page_advance_href_block_handling_witness :
    (⟨some "/epstein/doj-disclosures/data-set-8-files?page=2",
        some ⟨403, "text/html", "Access Denied"⟩, true, true,
        some ⟨200, "text/html", "<html>items</html>"⟩, false, true, false⟩ :
      AdvanceEnv).href = some "/epstein/doj-disclosures/data-set-8-files?page=2" ∧
    (⟨some "/epstein/doj-disclosures/data-set-8-files?page=2",
        some ⟨403, "text/html", "Access Denied"⟩, true, true,
        some ⟨200, "text/html", "<html>items</html>"⟩, false, true, false⟩ :
      AdvanceEnv).gotoResp = some ⟨403, "text/html", "Access Denied"⟩ ∧
    ((blockStatus (403 : Nat) = false →
        page_advance
          ⟨some "/epstein/doj-disclosures/data-set-8-files?page=2",
            some ⟨403, "text/html", "Access Denied"⟩, true, true,
            some ⟨200, "text/html", "<html>items</html>"⟩, false, true, false⟩ =
          (Advance.advance, 0, 0)) ∧
      (blockStatus (403 : Nat) = true →
        page_advance
          ⟨some "/epstein/doj-disclosures/data-set-8-files?page=2",
            some ⟨403, "text/html", "Access Denied"⟩, true, true,
            some ⟨200, "text/html", "<html>items</html>"⟩, false, true, false⟩ =
          (if retryStillBlocked
              ⟨some "/epstein/doj-disclosures/data-set-8-files?page=2",
                some ⟨403, "text/html", "Access Denied"⟩, true, true,
                some ⟨200, "text/html", "<html>items</html>"⟩, false, true, false⟩
            then Advance.stop else Advance.advance, 1, 1))) :=
  ⟨rfl, rfl,
   page_advance_href_block_handling _ "/epstein/doj-disclosures/data-set-8-files?page=2"
     ⟨403, "text/html", "Access Denied"⟩ rfl rfl⟩

/-!
## CLI entry point name resolution

src/epsteinFilePull.py performs, at module top, the statement
`import util.doj_dataset_helper as doj_dataset_helper` and then (in `main`,
line 46) the attribute access `doj_dataset_helper.pull_doj_dataset_headed`.
Loading util.doj_dataset_helper runs its own top-level statements, among
them the from-imports of lines 6-7; Python raises ImportError as soon as a
from-import names an attribute the loaded module does not define.  The
module-level names below are transcribed from the top-level `def`s and
imported names of each source file. -/

/-- Python errors relevant to the entry point. -/
inductive PyError where
  | importError (name : String)
  | attributeError (name : String)
  deriving Repr, DecidableEq

/-- Module-level names of src/util/headless_interaction_util.py: the
imports of lines 1-3 and the six top-level `def`s.  `print_request_details`
is not among them — it exists only in
src/common_util/headed_interaction_util.py. -/
def headless_interaction_util_names : List String :=
  ["time", "os", "requests", "_log_debug", "save_snapshot", "find_pdf_url",
   "click_verification_controls", "click_age_buttons", "ensure_page_verified"]

/-- Module-level names of src/util/doj_file_helper.py. -/
def doj_file_helper_names : List String :=
  ["time", "os", "requests", "find_pdf_url", "click_verification_controls",
   "click_age_buttons", "save_snapshot", "_log_debug", "pull_doj_file_headless"]

/-- Module-level names src/util/doj_dataset_helper.py would define if it
finished loading: its imports and its two top-level `def`s.  No
`pull_doj_dataset_headed` is defined anywhere in the repository. -/
def doj_dataset_helper_names : List String :=
  ["time", "os", "requests", "List", "pull_doj_file_headless",
   "print_request_details", "save_snapshot", "_log", "pull_doj_dataset_headless"]

/-- `from mod import name`: succeeds iff the loaded module defines the
name, else ImportError. -/
def from_import (names : List String) (n : String) : Except PyError Unit :=
  if n ∈ names then Except.ok () else Except.error (PyError.importError n)

/-- `getattr(module, n)`: AttributeError when the module lacks the name. -/
def get_attr (names : List String) (n : String) : Except PyError String :=
  if n ∈ names then Except.ok n else Except.error (PyError.attributeError n)

/-- Loading src/util/doj_file_helper.py: its line-4 from-import. -/
def load_doj_file_helper : Except PyError (List String) := do
  _ ← from_import headless_interaction_util_names "find_pdf_url"
  _ ← from_import headless_interaction_util_names "click_verification_controls"
  _ ← from_import headless_interaction_util_names "click_age_buttons"
  _ ← from_import headless_interaction_util_names "save_snapshot"
  pure doj_file_helper_names

/-- Loading src/util/doj_dataset_helper.py: the from-imports of its lines
6-7, in source order. -/
def load_doj_dataset_helper : Except PyError (List String) := do
  let dfh ← load_doj_file_helper
  _ ← from_import dfh "pull_doj_file_headless"
  _ ← from_import headless_interaction_util_names "print_request_details"
  _ ← from_import headless_interaction_util_names "save_snapshot"
  pure doj_dataset_helper_names

/-- The effect of invoking src/epsteinFilePull.py up to the point where a
page could first be fetched: the top-level module load of
util.doj_dataset_helper, then the `doj_dataset_helper.pull_doj_dataset_headed`
attribute access inside `main`; only past both could the crawl start. -/
def epstein_file_pull_main : Except PyError String := do
  let helper ← load_doj_dataset_helper
  let crawlFn ← get_attr helper "pull_doj_dataset_headed"
  pure crawlFn

/-- C10: every invocation of the CLI entry point raises before any page is
fetched — loading util.doj_dataset_helper already fails with ImportError
because util.headless_interaction_util does not define
`print_request_details`; and even past the import, the
`pull_doj_dataset_headed` the entry point calls does not exist in the
module, so the crawl can never start through this entry point. -/
theorem epstein_file_pull_main_raises_before_fetch :
    epstein_file_pull_main =
      Except.error (PyError.importError "print_request_details") ∧
    ¬ ("print_request_details" ∈ headless_interaction_util_names) ∧
    ¬ ("pull_doj_dataset_headed" ∈ doj_dataset_helper_names) ∧
    get_attr doj_dataset_helper_names "pull_doj_dataset_headed" =
      Except.error (PyError.attributeError "pull_doj_dataset_headed") := by
  refine ⟨rfl, ?_, ?_, rfl⟩ <;> decide

end EpsteinFilePull
